import Mathlib

/-!
Verification of the decoding core of the openlr-dereferencer package.

The sources under verification are `openlr_dereferencer/decoding/scoring.py` and
`openlr_dereferencer/decoding/point_locations.py`.  The supporting modules
`decoding/tools.py`, `decoding/line_location.py` and `maps/wgs84.py` are not part
of the sources; the definitions taken from them are modelled from the spec and
say so in their doc comments.  Real numbers of the Python code are embedded as
rationals; raising `LRDecodeError` is embedded as returning `none`.
-/

namespace OpenLR

/-- A WGS84 coordinate, `(longitude, latitude)` in degrees, as rationals. -/
abbrev Coord := ℚ × ℚ

/-- Modelled from the spec: the geodesy primitives of `maps/wgs84.py` (not among
the sources): `distance` is the great-circle distance in meters, `bearing` the
forward azimuth already converted to degrees (folding the `degrees` conversion
that the scorer applies at the one use site), and `interpolate a b d` the point
`d` meters from `a` along the segment toward `b` — the primitive that walking a
polyline and splitting a polyline reduce to. -/
structure Geo where
  distance : Coord → Coord → ℚ
  bearing : Coord → Coord → ℚ
  interpolate : Coord → Coord → ℚ → Coord

/-- A map line (directed road segment): stable id, total length in meters, FRC,
FOW and its polyline of coordinates, as in the spec's data model. -/
structure Line where
  id : Nat
  length : ℚ
  frc : Fin 8
  fow : Fin 8
  coordinates : List Coord
deriving DecidableEq

/-- Modelled from the spec: `PointOnLine` of `decoding/tools.py` (not among the
sources) — a line together with a fractional offset along it. -/
structure PointOnLine where
  line : Line
  relative_offset : ℚ
deriving DecidableEq

/-- Modelled from the spec: the LRP fields that the scorer reads — coordinate
(longitude, latitude), FRC, FOW and the bearing in degrees. -/
structure LocationReferencePoint where
  lon : ℚ
  lat : ℚ
  frc : Fin 8
  fow : Fin 8
  bear : ℚ
deriving DecidableEq

/-- Modelled from the spec: `coords` of `decoding/tools.py` — the coordinate of
an LRP. -/
def coords (lrp : LocationReferencePoint) : Coord := (lrp.lon, lrp.lat)

/-- Modelled from the spec: `linestring_coords` of `decoding/tools.py` — the
vertex list of a linestring, the identity on our polyline representation. -/
def linestring_coords (l : List Coord) : List Coord := l

/-- Modelled from the spec: `project_along_path(polyline, d)` of `maps/wgs84.py`
walks `d` meters from the polyline's start along its segments; if `d` exceeds the
polyline length the last vertex is returned. -/
def project_along_path (geo : Geo) : List Coord → ℚ → Coord
  | [], _ => ((0 : ℚ), (0 : ℚ))
  | [c], _ => c
  | c :: c2 :: rest, d =>
    if d ≤ geo.distance c c2 then geo.interpolate c c2 d
    else project_along_path geo (c2 :: rest) (d - geo.distance c c2)

/-- Modelled from the spec: cut the polyline `c :: rest` at distance `d` from
`c`, returning the sub-polylines before and after the cut point. -/
def splitPath (geo : Geo) : Coord → List Coord → ℚ → List Coord × List Coord
  | c, [], _ => ([c], [c])
  | c, c2 :: rest, d =>
    if d ≤ geo.distance c c2 then
      ([c, geo.interpolate c c2 d], geo.interpolate c c2 d :: c2 :: rest)
    else
      let r := splitPath geo c2 rest (d - geo.distance c c2)
      (c :: r.1, r.2)

/-- Modelled from the spec: `PointOnLine.split()` yields the sub-polylines before
and after the fractional offset; a side is absent (`none`) when the offset is 0
or 1. -/
def PointOnLine.split (geo : Geo) (p : PointOnLine) :
    Option (List Coord) × Option (List Coord) :=
  if p.relative_offset = 0 then (none, some p.line.coordinates)
  else if p.relative_offset = 1 then (some p.line.coordinates, none)
  else
    match p.line.coordinates with
    | [] => (some [], some [])
    | c :: rest =>
      let r := splitPath geo c rest (p.line.length * p.relative_offset)
      (some r.1, some r.2)

/-- Modelled from the spec: `PointOnLine.position()` — the geographic point at
the fractional offset along the line's polyline. -/
def PointOnLine.position (geo : Geo) (p : PointOnLine) : Coord :=
  project_along_path geo p.line.coordinates (p.line.length * p.relative_offset)

/-! Constants of `decoding/scoring.py`. -/

/-- Weight of the FOW score in the candidate score (`scoring.py`). -/
def FOW_WEIGHT : ℚ := 1 / 4

/-- Weight of the FRC score in the candidate score (`scoring.py`). -/
def FRC_WEIGHT : ℚ := 1 / 4

/-- Weight of the geographic score in the candidate score (`scoring.py`). -/
def GEO_WEIGHT : ℚ := 1 / 4

/-- Weight of the bearing score in the candidate score (`scoring.py`). -/
def BEAR_WEIGHT : ℚ := 1 / 4

/-- Distance (in meters) of the bearing probe point (`scoring.py`). -/
def BEAR_DIST : ℚ := 20

/-- The FOW stand-in scoring matrix of `scoring.py`, used as
`FOW_STAND_IN_SCORE[lrp fow][candidate fow]`. -/
def FOW_STAND_IN_SCORE : List (List ℚ) := [
  [0.50, 0.50, 0.50, 0.50, 0.50, 0.50, 0.50, 0.5],  -- Undefined FOW
  [0.50, 1.00, 0.75, 0.00, 0.00, 0.00, 0.00, 0.0],  -- Motorway
  [0.50, 0.75, 1.00, 0.75, 0.50, 0.00, 0.00, 0.0],  -- Multiple carriage way
  [0.50, 0.00, 0.75, 1.00, 0.50, 0.50, 0.00, 0.0],  -- Single carriage way
  [0.50, 0.00, 0.50, 0.50, 1.00, 0.50, 0.00, 0.0],  -- Roundabout
  [0.50, 0.00, 0.00, 0.50, 0.50, 1.00, 0.00, 0.0],  -- Traffic square
  [0.50, 0.00, 0.00, 0.00, 0.00, 0.00, 1.00, 0.0],  -- Sliproad
  [0.50, 0.00, 0.00, 0.00, 0.00, 0.00, 0.00, 1.0]]  -- Other FOW

/-- `score_fow` of `scoring.py`: the matrix lookup
`FOW_STAND_IN_SCORE[wanted][actual]`. -/
def score_fow (wanted actual : Fin 8) : ℚ :=
  (FOW_STAND_IN_SCORE.getD wanted []).getD actual 0

/-- `score_frc` of `scoring.py`: `1.0 - abs(actual - wanted) / 7`. -/
def score_frc (wanted actual : Fin 8) : ℚ :=
  1 - |(actual.val : ℚ) - (wanted.val : ℚ)| / 7

/-- `score_geolocation` of `scoring.py`: `1 - dist / radius` when the distance
between the LRP coordinate and the candidate position is below `radius`, else 0.
The `is_last_lrp` argument is accepted, as in the source, and never read. -/
def score_geolocation (geo : Geo) (wanted : LocationReferencePoint)
    (actual : PointOnLine) (radius : ℚ) (is_last_lrp : Bool) : ℚ :=
  if geo.distance (coords wanted) (actual.position geo) < radius then
    1 - geo.distance (coords wanted) (actual.position geo) / radius
  else 0

/-- Python's float `%` with a positive modulus, on rationals:
`x % y = x - y * ⌊x / y⌋`. -/
def qmod (x y : ℚ) : ℚ := x - y * ⌊x / y⌋

/-- `score_angle_difference` of `scoring.py`:
`difference = (abs(angle1 - angle2) + 180) % 360 - 180` and the score is
`1 - abs(difference) / 180`. -/
def score_angle_difference (angle1 angle2 : ℚ) : ℚ :=
  let difference := qmod (|angle1 - angle2| + 180) 360 - 180
  1 - |difference| / 180

/-- The sub-polyline that `score_bearing` of `scoring.py` walks for its probe
point: the after-split polyline for a non-terminal LRP, the reversed
before-split polyline for the last LRP; `none` when that side is absent. -/
def score_bearing_path (geo : Geo) (actual : PointOnLine) (is_last_lrp : Bool) :
    Option (List Coord) :=
  if is_last_lrp then (actual.split geo).1.map (fun l => (linestring_coords l).reverse)
  else (actual.split geo).2.map (fun l => linestring_coords l)

/-- `score_bearing` of `scoring.py`: 0 when the relevant sub-polyline is absent,
otherwise the angle-difference score between `wanted.bear` and the bearing from
the candidate's position to the probe point obtained by walking
`absolute_offset + BEAR_DIST` meters along the sub-polyline, where
`absolute_offset = actual.line.length * actual.relative_offset`. -/
def score_bearing (geo : Geo) (wanted : LocationReferencePoint)
    (actual : PointOnLine) (is_last_lrp : Bool) : ℚ :=
  Option.elim (score_bearing_path geo actual is_last_lrp) 0 (fun coordinates =>
    let absolute_offset := actual.line.length * actual.relative_offset
    let bearing_point := project_along_path geo coordinates (absolute_offset + BEAR_DIST)
    let bear := geo.bearing (actual.position geo) bearing_point
    score_angle_difference wanted.bear bear)

/-- Modelled from the spec (§4.3), for comparison with `score_bearing`: the
bearing scorer as the spec words it, whose probe point lies `BEAR_DIST` meters
from the candidate's position along the forward-looking sub-polyline. -/
def spec_score_bearing (geo : Geo) (wanted : LocationReferencePoint)
    (actual : PointOnLine) (is_last_lrp : Bool) : ℚ :=
  Option.elim (score_bearing_path geo actual is_last_lrp) 0 (fun coordinates =>
    let bearing_point := project_along_path geo coordinates BEAR_DIST
    let bear := geo.bearing (actual.position geo) bearing_point
    score_angle_difference wanted.bear bear)

/-- `score_lrp_candidate` of `scoring.py`: the weighted sum of the four
sub-scores. -/
def score_lrp_candidate (geo : Geo) (wanted : LocationReferencePoint)
    (candidate : PointOnLine) (radius : ℚ) (is_last_lrp : Bool) : ℚ :=
  FOW_WEIGHT * score_fow wanted.fow candidate.line.fow
    + FRC_WEIGHT * score_frc wanted.frc candidate.line.frc
    + GEO_WEIGHT * score_geolocation geo wanted candidate radius is_last_lrp
    + BEAR_WEIGHT * score_bearing geo wanted candidate is_last_lrp

/-- Modelled from the spec: a `Route` of `decoding/line_location.py` (not among
the sources) — a start point-on-line, the ordered intermediate whole lines, and
an end point-on-line. -/
structure Route where
  start : PointOnLine
  path_inbetween : List Line
  «end» : PointOnLine
deriving DecidableEq

/-- Modelled from the spec (§3, §4.5): `Route.length()` — the start line's
remainder plus the intermediate lines plus the end line's portion, with the
degenerate-case adjustment when start and end lie on the same line with no
intermediate lines. -/
def Route.length (r : Route) : ℚ :=
  if r.start.line = r.«end».line ∧ r.path_inbetween = [] then
    r.start.line.length * (r.«end».relative_offset - r.start.relative_offset)
  else
    r.start.line.length * (1 - r.start.relative_offset)
      + (r.path_inbetween.map Line.length).sum
      + r.«end».line.length * r.«end».relative_offset

/-- The `for road in route.path_inbetween` loop of `point_along_linelocation`:
`Sum.inl` is the loop's early return, `Sum.inr` the leftover length after the
loop. -/
def point_along_aux : List Line → ℚ → (Line × ℚ) ⊕ ℚ
  | [], leftover => Sum.inr leftover
  | road :: rest, leftover =>
    if leftover > road.length then point_along_aux rest (leftover - road.length)
    else Sum.inl (road, leftover)

/-- `point_along_linelocation` of `decoding/point_locations.py`: step `length`
meters into the route and return the line and the offset in meters from that
line's start; `none` embeds raising `LRDecodeError`. -/
def point_along_linelocation (route : Route) (length : ℚ) : Option (Line × ℚ) :=
  let leftover := length - route.start.line.length * (1 - route.start.relative_offset)
  if leftover < 0 then
    some (route.start.line, route.start.line.length * route.start.relative_offset + length)
  else
    match point_along_aux route.path_inbetween leftover with
    | Sum.inl r => some r
    | Sum.inr leftover2 =>
      if leftover2 - route.«end».line.length * route.«end».relative_offset < 0 then
        some (route.«end».line, route.«end».line.length * route.«end».relative_offset)
      else none

/-- Modelled from the spec: `get_lines` of `decoding/line_location.py` (not among
the sources) applied to the single-route path `[r]` — the lines of the route in
order. -/
def get_lines (r : Route) : List Line :=
  r.start.line :: (r.path_inbetween ++ [r.«end».line])

/-- Modelled from the spec: `path_length` of the maps package (not among the
sources) — the sum-of-lines length. -/
def path_length (lines : List Line) : ℚ :=
  (lines.map Line.length).sum

/-- The offset base computation of `decode_pointalongline` of
`decoding/point_locations.py`: `absolute_offset = path.length() * reference.poffs`
(the dereferencing of the path itself happens against the map reader and is not
embedded). -/
def decode_pointalongline_offset (path : Route) (poffs : ℚ) : ℚ :=
  Route.length path * poffs

/-- The offset base computation of `decode_poi_with_accesspoint` of
`decoding/point_locations.py`:
`absolute_offset = path_length(get_lines([path])) * reference.poffs`. -/
def decode_poi_with_accesspoint_offset (path : Route) (poffs : ℚ) : ℚ :=
  path_length (get_lines path) * poffs

/-! Concrete instances used to evaluate the embedded functions. -/

/-- A concrete geodesy for evaluation: taxicab distance, linear interpolation
along a segment, and the latitude difference standing in for the azimuth. -/
def geoTaxi : Geo where
  distance a b := |b.1 - a.1| + |b.2 - a.2|
  bearing a b := b.2 - a.2
  interpolate a b d :=
    (a.1 + d * (b.1 - a.1) / (|b.1 - a.1| + |b.2 - a.2|),
     a.2 + d * (b.2 - a.2) / (|b.1 - a.1| + |b.2 - a.2|))

/-- A straight 100 m line from (0,0) to (100,0). -/
def lineA : Line := ⟨0, 100, 0, 0, [(0, 0), (100, 0)]⟩

/-- A straight 100 m line from (100,0) to (200,0). -/
def lineB : Line := ⟨1, 100, 0, 0, [(100, 0), (200, 0)]⟩

/-- A bent 100 m line: 50 m east then 50 m north. -/
def lineBent : Line := ⟨2, 100, 0, 0, [(0, 0), (50, 0), (50, 50)]⟩

/-- A route covering all of `lineA` and all of `lineB`. -/
def routeC1 : Route := ⟨⟨lineA, 0⟩, [], ⟨lineB, 1⟩⟩

/-- A route within `lineA` from its 10% point to its 90% point. -/
def routeSame : Route := ⟨⟨lineA, 1/10⟩, [], ⟨lineA, 9/10⟩⟩

/-- A route from the midpoint of `lineA` to the midpoint of `lineB`. -/
def routeAB : Route := ⟨⟨lineA, 1/2⟩, [], ⟨lineB, 1/2⟩⟩

/-- A candidate at the 20% point of the bent line. -/
def candC3 : PointOnLine := ⟨lineBent, 1/5⟩

/-- An LRP at the origin with bearing 0. -/
def lrpC3 : LocationReferencePoint := ⟨0, 0, 0, 0, 0⟩

/-- An LRP at the origin used for witnesses. -/
def lrpW : LocationReferencePoint := ⟨0, 0, 0, 1, 0⟩

/-- A candidate at the start of `lineA`, at the origin. -/
def candW : PointOnLine := ⟨lineA, 0⟩

end OpenLR

namespace OpenLR

/-! Helper lemmas about Python's `%` by 360 and the angle deviation. -/

/-- The absolute angular deviation underlying `score_angle_difference`:
the distance from `x` to the nearest multiple of 360. -/
def angle_dev (x : ℚ) : ℚ := |qmod (x + 180) 360 - 180|

theorem qmod_eq_fract (x : ℚ) : qmod x 360 = 360 * Int.fract (x / 360) := by
  simp only [qmod, Int.fract]
  ring

theorem qmod_nonneg (x : ℚ) : 0 ≤ qmod x 360 := by
  rw [qmod_eq_fract]
  have h := Int.fract_nonneg (x / 360)
  linarith

theorem qmod_lt_360 (x : ℚ) : qmod x 360 < 360 := by
  rw [qmod_eq_fract]
  have h := Int.fract_lt_one (x / 360)
  linarith

theorem qmod_add_int (x : ℚ) (k : ℤ) : qmod (x + 360 * (k : ℚ)) 360 = qmod x 360 := by
  rw [qmod_eq_fract, qmod_eq_fract]
  have h : (x + 360 * (k : ℚ)) / 360 = x / 360 + (k : ℚ) := by ring
  rw [h, Int.fract_add_int]

theorem qmod_neg (x : ℚ) :
    qmod (-x) 360 = if qmod x 360 = 0 then 0 else 360 - qmod x 360 := by
  rw [qmod_eq_fract, qmod_eq_fract]
  have h : (-x) / 360 = -(x / 360) := by ring
  rw [h]
  by_cases hf : Int.fract (x / 360) = 0
  · rw [Int.fract_neg_eq_zero.mpr hf, hf]
    norm_num
  · rw [Int.fract_neg hf, if_neg (by intro h0; exact hf (by linarith))]
    ring

theorem angle_dev_add_int (x : ℚ) (k : ℤ) : angle_dev (x + 360 * (k : ℚ)) = angle_dev x := by
  unfold angle_dev
  have h : x + 360 * (k : ℚ) + 180 = (x + 180) + 360 * (k : ℚ) := by ring
  rw [h, qmod_add_int]

theorem angle_dev_neg (x : ℚ) : angle_dev (-x) = angle_dev x := by
  unfold angle_dev
  have h1 : -x + 180 = -(x - 180) := by ring
  rw [h1, qmod_neg]
  have h2 : qmod (x - 180) 360 = qmod (x + 180) 360 := by
    have h3 : x - 180 = (x + 180) + 360 * ((-1 : ℤ) : ℚ) := by push_cast; ring
    rw [h3, qmod_add_int]
  rw [h2]
  by_cases h : qmod (x + 180) 360 = 0
  · rw [if_pos h, h]
  · rw [if_neg h]
    have h4 : 360 - qmod (x + 180) 360 - 180 = -(qmod (x + 180) 360 - 180) := by ring
    rw [h4, abs_neg]

theorem angle_dev_abs (x : ℚ) : angle_dev |x| = angle_dev x := by
  rcases abs_cases x with ⟨h, _⟩ | ⟨h, _⟩
  · rw [h]
  · rw [h, angle_dev_neg]

theorem score_angle_difference_eq_dev (a b : ℚ) :
    score_angle_difference a b = 1 - angle_dev (a - b) / 180 := by
  rw [← angle_dev_abs (a - b)]
  rfl

theorem angle_dev_nonneg (x : ℚ) : 0 ≤ angle_dev x := abs_nonneg _

theorem angle_dev_le_180 (x : ℚ) : angle_dev x ≤ 180 := by
  unfold angle_dev
  have h1 := qmod_nonneg (x + 180)
  have h2 := qmod_lt_360 (x + 180)
  rw [abs_le]
  constructor <;> linarith

theorem score_angle_difference_bounds (a b : ℚ) :
    0 ≤ score_angle_difference a b ∧ score_angle_difference a b ≤ 1 := by
  rw [score_angle_difference_eq_dev]
  have h1 := angle_dev_nonneg (a - b)
  have h2 := angle_dev_le_180 (a - b)
  constructor <;> linarith

/-! Bounds of the four sub-scores. -/

theorem score_fow_bounds (w a : Fin 8) : 0 ≤ score_fow w a ∧ score_fow w a ≤ 1 := by
  fin_cases w <;> fin_cases a <;> norm_num [score_fow, FOW_STAND_IN_SCORE]

theorem score_frc_bounds (w a : Fin 8) : 0 ≤ score_frc w a ∧ score_frc w a ≤ 1 := by
  unfold score_frc
  have hw : (w.val : ℚ) ≤ 7 := by exact_mod_cast Nat.lt_succ_iff.mp w.isLt
  have ha : (a.val : ℚ) ≤ 7 := by exact_mod_cast Nat.lt_succ_iff.mp a.isLt
  have hw0 : (0 : ℚ) ≤ (w.val : ℚ) := Nat.cast_nonneg _
  have ha0 : (0 : ℚ) ≤ (a.val : ℚ) := Nat.cast_nonneg _
  have habs : |(a.val : ℚ) - (w.val : ℚ)| ≤ 7 := abs_le.mpr ⟨by linarith, by linarith⟩
  have habs0 : 0 ≤ |(a.val : ℚ) - (w.val : ℚ)| := abs_nonneg _
  constructor <;> linarith

theorem score_geolocation_bounds (geo : Geo) (wanted : LocationReferencePoint)
    (actual : PointOnLine) (radius : ℚ) (b : Bool)
    (h : 0 ≤ geo.distance (coords wanted) (actual.position geo)) :
    0 ≤ score_geolocation geo wanted actual radius b ∧
      score_geolocation geo wanted actual radius b ≤ 1 := by
  unfold score_geolocation
  split_ifs with hlt
  · have hr : 0 < radius := lt_of_le_of_lt h hlt
    have h1 : geo.distance (coords wanted) (actual.position geo) / radius < 1 :=
      (div_lt_one hr).mpr hlt
    have h2 : 0 ≤ geo.distance (coords wanted) (actual.position geo) / radius :=
      div_nonneg h hr.le
    constructor <;> linarith
  · norm_num

theorem score_bearing_bounds (geo : Geo) (wanted : LocationReferencePoint)
    (actual : PointOnLine) (b : Bool) :
    0 ≤ score_bearing geo wanted actual b ∧ score_bearing geo wanted actual b ≤ 1 := by
  unfold score_bearing
  rcases score_bearing_path geo actual b with _ | cs
  · norm_num [Option.elim]
  · simp only [Option.elim]
    exact score_angle_difference_bounds _ _

/-! The claims. -/

/-- C1: evaluation at a failing input.  On the route covering all of `lineA`
then all of `lineB` (total length 200), walking `d = 150` meters lands 50 meters
into `lineB`, yet `point_along_linelocation` returns offset 100 — the route's
end offset — contradicting its own description of returning the offset of the
stepped point. -/
theorem C1_point_along_end_branch :
    (150 : ℚ) ≤ Route.length routeC1 ∧
    point_along_linelocation routeC1 150 = some (lineB, 100) ∧
    point_along_linelocation routeC1 150 ≠ some (lineB, 50) := by
  refine ⟨?_, ?_, ?_⟩ <;>
    norm_num [Route.length, point_along_linelocation, point_along_aux, routeC1, lineA, lineB]

/-- C2: evaluation at failing inputs.  On `routeC1` (length 200) the walk of
exactly `d = 200 = length(R)` raises (returns `none`) although the claim allows
an error only for `d > length(R)`; on the same-line route `routeSame`
(length 80) the walk of `d = 85 > length(R)` does not raise and even returns a
point beyond the route's end. -/
theorem C2_path_exhausted_boundary :
    Route.length routeC1 = 200 ∧
    point_along_linelocation routeC1 200 = none ∧
    Route.length routeSame = 80 ∧
    (80 : ℚ) < 85 ∧
    point_along_linelocation routeSame 85 = some (lineA, 95) := by
  refine ⟨?_, ?_, ?_, by norm_num, ?_⟩ <;>
    norm_num [Route.length, point_along_linelocation, point_along_aux, routeSame, routeC1,
      lineA, lineB]

/-- C3: evaluation at a failing input.  For the candidate at the 20% point of
the bent line, `score_bearing` walks `absolute_offset + BEAR_DIST = 40` meters
along the after-split sub-polyline (landing at `(50, 10)`) instead of the
`BEAR_DIST = 20` meters from the candidate's position that the spec describes
(landing at `(40, 0)`), and the resulting score (17/18) differs from the score
of the spec-described probe (1). -/
theorem C3_bearing_probe_overshoot :
    score_bearing_path geoTaxi candC3 false = some [((20 : ℚ), (0 : ℚ)), (50, 0), (50, 50)] ∧
    project_along_path geoTaxi [((20 : ℚ), (0 : ℚ)), (50, 0), (50, 50)]
      (candC3.line.length * candC3.relative_offset + BEAR_DIST) = (50, 10) ∧
    project_along_path geoTaxi [((20 : ℚ), (0 : ℚ)), (50, 0), (50, 50)] BEAR_DIST = (40, 0) ∧
    score_bearing geoTaxi lrpC3 candC3 false = 17 / 18 ∧
    spec_score_bearing geoTaxi lrpC3 candC3 false = 1 ∧
    score_bearing geoTaxi lrpC3 candC3 false ≠ spec_score_bearing geoTaxi lrpC3 candC3 false := by
  refine ⟨?_, ?_, ?_, ?_, ?_, ?_⟩ <;>
    norm_num [score_bearing, spec_score_bearing, score_bearing_path, PointOnLine.split,
      splitPath, geoTaxi, candC3, lineBent, linestring_coords, lrpC3, BEAR_DIST,
      project_along_path, PointOnLine.position, score_angle_difference, qmod]

/-- C4: counterexample.  On the route from the midpoint of `lineA` to the
midpoint of `lineB`, the offset base of `decode_poi_with_accesspoint` (the
sum-of-lines length, 200) is not the route length (100), so the two point
decoders do not both use the route length as the claim states. -/
theorem C4_poi_offset_base_counterexample :
    decode_poi_with_accesspoint_offset routeAB 1 ≠ Route.length routeAB * 1 := by
  norm_num [decode_poi_with_accesspoint_offset, path_length, get_lines, Route.length,
    routeAB, lineA, lineB]

/-- C4 (amended): `decode_pointalongline` computes its absolute offset as
`poffs` times the route length, while `decode_poi_with_accesspoint` computes it
as `poffs` times the sum-of-lines length of the path; for a route whose start
and end lie on distinct lines the two bases differ by
`start.line.length * start_offset + end.line.length * (1 - end_offset)`, so they
agree only when the start offset is 0 and the end offset is 1. -/
theorem C4_offset_bases (r : Route) (poffs : ℚ) (h : r.start.line ≠ r.«end».line) :
    decode_pointalongline_offset r poffs = Route.length r * poffs ∧
    decode_poi_with_accesspoint_offset r poffs = path_length (get_lines r) * poffs ∧
    path_length (get_lines r) - Route.length r =
      r.start.line.length * r.start.relative_offset
        + r.«end».line.length * (1 - r.«end».relative_offset) := by
  refine ⟨rfl, rfl, ?_⟩
  unfold path_length get_lines Route.length
  rw [if_neg (fun hc => h hc.1)]
  simp only [List.map_cons, List.map_append, List.sum_cons, List.sum_append, List.map_nil,
    List.sum_nil]
  ring

/-- Witness for C4 (amended), at the concrete route `routeAB`. -/
theorem C4_offset_bases_witness :
    decode_pointalongline_offset routeAB (1 / 2) = Route.length routeAB * (1 / 2) ∧
    decode_poi_with_accesspoint_offset routeAB (1 / 2) =
      path_length (get_lines routeAB) * (1 / 2) ∧
    path_length (get_lines routeAB) - Route.length routeAB =
      routeAB.start.line.length * routeAB.start.relative_offset
        + routeAB.«end».line.length * (1 - routeAB.«end».relative_offset) :=
  C4_offset_bases routeAB (1 / 2) (by norm_num [routeAB, lineA, lineB])

/-- C5: all four sub-scores of a candidate lie in `[0, 1]`; the four weights all
equal `1/4` and sum to 1; `score_lrp_candidate` is exactly their weighted sum;
and hence the final candidate score lies in `[0, 1]`.  The one hypothesis is
that the geodesic distance function is nonnegative at the scored pair of
points. -/
theorem C5_candidate_score_weighted_sum (geo : Geo) (wanted : LocationReferencePoint)
    (candidate : PointOnLine) (radius : ℚ) (is_last_lrp : Bool)
    (h : 0 ≤ geo.distance (coords wanted) (candidate.position geo)) :
    FOW_WEIGHT = 1 / 4 ∧ FRC_WEIGHT = 1 / 4 ∧ GEO_WEIGHT = 1 / 4 ∧ BEAR_WEIGHT = 1 / 4 ∧
    FOW_WEIGHT + FRC_WEIGHT + GEO_WEIGHT + BEAR_WEIGHT = 1 ∧
    (0 ≤ score_fow wanted.fow candidate.line.fow ∧
      score_fow wanted.fow candidate.line.fow ≤ 1) ∧
    (0 ≤ score_frc wanted.frc candidate.line.frc ∧
      score_frc wanted.frc candidate.line.frc ≤ 1) ∧
    (0 ≤ score_geolocation geo wanted candidate radius is_last_lrp ∧
      score_geolocation geo wanted candidate radius is_last_lrp ≤ 1) ∧
    (0 ≤ score_bearing geo wanted candidate is_last_lrp ∧
      score_bearing geo wanted candidate is_last_lrp ≤ 1) ∧
    score_lrp_candidate geo wanted candidate radius is_last_lrp =
      FOW_WEIGHT * score_fow wanted.fow candidate.line.fow
        + FRC_WEIGHT * score_frc wanted.frc candidate.line.frc
        + GEO_WEIGHT * score_geolocation geo wanted candidate radius is_last_lrp
        + BEAR_WEIGHT * score_bearing geo wanted candidate is_last_lrp ∧
    0 ≤ score_lrp_candidate geo wanted candidate radius is_last_lrp ∧
    score_lrp_candidate geo wanted candidate radius is_last_lrp ≤ 1 := by
  obtain ⟨hf0, hf1⟩ := score_fow_bounds wanted.fow candidate.line.fow
  obtain ⟨hc0, hc1⟩ := score_frc_bounds wanted.frc candidate.line.frc
  obtain ⟨hg0, hg1⟩ := score_geolocation_bounds geo wanted candidate radius is_last_lrp h
  obtain ⟨hb0, hb1⟩ := score_bearing_bounds geo wanted candidate is_last_lrp
  refine ⟨rfl, rfl, rfl, rfl, by norm_num [FOW_WEIGHT, FRC_WEIGHT, GEO_WEIGHT, BEAR_WEIGHT],
    ⟨hf0, hf1⟩, ⟨hc0, hc1⟩, ⟨hg0, hg1⟩, ⟨hb0, hb1⟩, rfl, ?_, ?_⟩
  · unfold score_lrp_candidate FOW_WEIGHT FRC_WEIGHT GEO_WEIGHT BEAR_WEIGHT
    linarith
  · unfold score_lrp_candidate FOW_WEIGHT FRC_WEIGHT GEO_WEIGHT BEAR_WEIGHT
    linarith

/-- Witness for C5, at a concrete geodesy, LRP and candidate. -/
theorem C5_candidate_score_weighted_sum_witness :
    0 ≤ score_lrp_candidate geoTaxi lrpW candW 100 false ∧
    score_lrp_candidate geoTaxi lrpW candW 100 false ≤ 1 := by
  obtain ⟨-, -, -, -, -, -, -, -, -, -, h1, h2⟩ :=
    C5_candidate_score_weighted_sum geoTaxi lrpW candW 100 false
      (by norm_num [geoTaxi, coords, lrpW, candW, PointOnLine.position, project_along_path,
        lineA])
  exact ⟨h1, h2⟩

/-- C6: counterexample.  The diagonal of the FOW stand-in matrix is not
uniformly 1: the Undefined-vs-Undefined entry `FOW_STAND_IN_SCORE[0][0]`
is 0.5. -/
theorem C6_fow_diagonal_counterexample : score_fow 0 0 ≠ 1 := by
  norm_num [score_fow, FOW_STAND_IN_SCORE]

/-- C6 (amended): `score_fow f f = 1` for every FOW value except Undefined,
whose diagonal entry is 0.5; the whole Undefined row and Undefined column score
0.5; and `score_fow` is exactly the table lookup
`FOW_STAND_IN_SCORE[wanted][actual]`. -/
theorem C6_fow_table_amended :
    (∀ f : Fin 8, score_fow f f = if f = 0 then 0.5 else 1) ∧
    (∀ g : Fin 8, score_fow 0 g = 0.5 ∧ score_fow g 0 = 0.5) ∧
    (∀ w a : Fin 8, score_fow w a = (FOW_STAND_IN_SCORE.getD w []).getD a 0) := by
  refine ⟨?_, ?_, fun w a => rfl⟩
  · intro f
    fin_cases f <;> norm_num [score_fow, FOW_STAND_IN_SCORE, Fin.ext_iff]
  · intro g
    fin_cases g <;> constructor <;> norm_num [score_fow, FOW_STAND_IN_SCORE]

/-- C7: the geographic score is `1 - d / radius` when the distance `d` between
the LRP coordinate and the candidate position is within `radius` (the linear
part), exactly 0 from distance `radius` on, and 1 at distance 0. -/
theorem C7_geolocation_formula (geo : Geo) (wanted : LocationReferencePoint)
    (actual : PointOnLine) (radius d : ℚ) (is_last_lrp : Bool) (hr : 0 < radius)
    (hd : d = geo.distance (coords wanted) (actual.position geo)) :
    (d < radius → score_geolocation geo wanted actual radius is_last_lrp = 1 - d / radius) ∧
    (radius ≤ d → score_geolocation geo wanted actual radius is_last_lrp = 0) ∧
    (d = 0 → score_geolocation geo wanted actual radius is_last_lrp = 1) := by
  subst hd
  unfold score_geolocation
  refine ⟨fun h => ?_, fun h => ?_, fun h => ?_⟩
  · rw [if_pos h]
  · rw [if_neg (not_lt.mpr h)]
  · rw [h, if_pos hr]
    norm_num

/-- Witness for C7, at distance 0 and radius 100. -/
theorem C7_geolocation_formula_witness :
    ((0 : ℚ) < 100 → score_geolocation geoTaxi lrpW candW 100 false = 1 - 0 / 100) ∧
    ((100 : ℚ) ≤ 0 → score_geolocation geoTaxi lrpW candW 100 false = 0) ∧
    ((0 : ℚ) = 0 → score_geolocation geoTaxi lrpW candW 100 false = 1) :=
  C7_geolocation_formula geoTaxi lrpW candW 100 0 false (by norm_num)
    (by norm_num [geoTaxi, coords, lrpW, candW, PointOnLine.position, project_along_path, lineA])

/-- C8: `score_angle_difference` is 1 at equal angles, 0 at a 180° difference,
symmetric in its two arguments, and invariant under shifting either argument by
any integer multiple of 360°. -/
theorem C8_angle_difference_algebra (a b : ℚ) (k : ℤ) :
    score_angle_difference a a = 1 ∧
    score_angle_difference a (a + 180) = 0 ∧
    score_angle_difference a b = score_angle_difference b a ∧
    score_angle_difference (a + 360 * (k : ℚ)) b = score_angle_difference a b ∧
    score_angle_difference a (b + 360 * (k : ℚ)) = score_angle_difference a b := by
  refine ⟨?_, ?_, ?_, ?_, ?_⟩
  · rw [score_angle_difference_eq_dev, sub_self]
    have h0 : angle_dev 0 = 0 := by norm_num [angle_dev, qmod]
    rw [h0]
    norm_num
  · rw [score_angle_difference_eq_dev]
    have h : a - (a + 180) = -180 := by ring
    rw [h]
    have h1 : angle_dev (-180) = 180 := by norm_num [angle_dev, qmod]
    rw [h1]
    norm_num
  · rw [score_angle_difference_eq_dev, score_angle_difference_eq_dev]
    have h : b - a = -(a - b) := by ring
    rw [h, angle_dev_neg]
  · rw [score_angle_difference_eq_dev, score_angle_difference_eq_dev]
    have h : a + 360 * (k : ℚ) - b = (a - b) + 360 * (k : ℚ) := by ring
    rw [h, angle_dev_add_int]
  · rw [score_angle_difference_eq_dev, score_angle_difference_eq_dev]
    have h : a - (b + 360 * (k : ℚ)) = (a - b) + 360 * ((-k : ℤ) : ℚ) := by push_cast; ring
    rw [h, angle_dev_add_int]

/-- C9: `score_geolocation` does not depend on its `is_last_lrp` argument — for
any two values of that flag the score is identical. -/
theorem C9_geolocation_ignores_is_last_lrp (geo : Geo) (wanted : LocationReferencePoint)
    (actual : PointOnLine) (radius : ℚ) (b1 b2 : Bool) :
    score_geolocation geo wanted actual radius b1 =
      score_geolocation geo wanted actual radius b2 := rfl

/-- C10: the FOW stand-in scoring is symmetric — the 8×8 matrix equals its
transpose, so `score_fow a b = score_fow b a` for all FOW values. -/
theorem C10_fow_symmetric : ∀ a b : Fin 8, score_fow a b = score_fow b a := by
  intro a b
  fin_cases a <;> fin_cases b <;> norm_num [score_fow, FOW_STAND_IN_SCORE]

end OpenLR
